import Mathlib

/-!
Verification of the incremental extraction and deduplication pipeline of the
amazon_reviews_etl_pipeline_using_serpapi repository.

The Python source is shallowly embedded: the PostgreSQL tables become lists of
records inside a `DBState`, the SQL statements of `db_manager.py` become pure
state-transforming functions, the orchestration loop of `etl_runner.py` becomes
a fold over the link list, and the HTTP/HTML layers of `serpapi_client.py` are
abstracted to explicit input data (status code, extracted tag texts, search
results).  Python strings are Lean `String`s; string manipulation is modelled by
structurally recursive functions on the underlying character lists so that every
definition evaluates inside the kernel.
-/

namespace AmazonETL

/-! ## Character-list string helpers (models of the Python string operations) -/

/-- If `pre` is a prefix of `l`, return the remainder after that prefix. -/
def dropPre : List Char → List Char → Option (List Char)
  | [], l => some l
  | _ :: _, [] => none
  | p :: ps, c :: cs => if p = c then dropPre ps cs else none

/-- Fuel-bounded worker for `splitOnL`; the fuel only bounds the recursion and
is inert whenever the separator is nonempty and the fuel is at least the length
of the scanned list. -/
def splitOnFuel (sep : List Char) : Nat → List Char → List (List Char)
  | 0, _ => [[]]
  | _ + 1, [] => [[]]
  | fuel + 1, c :: cs =>
    match dropPre sep (c :: cs) with
    | some rest => [] :: splitOnFuel sep fuel rest
    | none =>
      match splitOnFuel sep fuel cs with
      | [] => [[c]]
      | h :: t => (c :: h) :: t

/-- Model of Python `str.split(sep)` for a nonempty separator: split `l` at
every non-overlapping occurrence of `sep`, scanning left to right. -/
def splitOnL (sep l : List Char) : List (List Char) := splitOnFuel sep l.length l

/-- Model of the Python substring test `sep in l`. -/
def containsList (pat : List Char) : List Char → Bool
  | [] => (dropPre pat []).isSome
  | c :: cs => (dropPre pat (c :: cs)).isSome || containsList pat cs

/-- Digit-accumulating worker for `listToNat?`. -/
def digitsToNatAux : List Char → Nat → Option Nat
  | [], acc => some acc
  | c :: cs, acc => if c.isDigit then digitsToNatAux cs (acc * 10 + (c.toNat - 48)) else none

/-- Model of Python `int(s)` restricted to nonnegative decimal literals:
`none` models the `ValueError` path of the source's `try/except`. -/
def listToNat? : List Char → Option Nat
  | [] => none
  | l => digitsToNatAux l 0

/-- Model of Python `float(s)` restricted to decimal literals such as `4.5`:
`none` models the `ValueError` path of the source's `try/except`.  The numeric
value itself is carried opaquely by the pipeline, so only the success/failure
distinction matters downstream. -/
def parseDecimal (l : List Char) : Option Rat :=
  match splitOnL [Char.ofNat 46] l with
  | [a] => (listToNat? a).map (fun n => (n : Rat))
  | [a, b] =>
    match listToNat? a, listToNat? b with
    | some n, some f => some ((n : Rat) + (f : Rat) / ((10 : Rat) ^ b.length))
    | _, _ => none
  | _ => none

/-- Model of Python `s.split(" ")[0]` (used on stripped tag text). -/
def firstToken (s : String) : List Char :=
  (splitOnL [' '] s.toList).headD []

/-- Python truthiness of an optional string: `None` and `""` are falsy. -/
def optFalsy : Option String → Bool
  | none => true
  | some s => s.isEmpty

/-! ## Data model (from `db_manager.ensure_tables_exist`)

`amazon_links` rows and `amazon_reviews` rows.  Columns that every code path
stores non-null (`url` of a link, and — thanks to the guard in
`insert_review_row` — `product_url` / `review_text` of a review row) are plain
`String`s; all other nullable columns are `Option`s.  Timestamps are opaque
`Nat`s (the pipeline never computes with them). -/

/-- One row of the `amazon_links` table. -/
structure LinkRow where
  id : Nat
  asin : Option String
  url : String
  product_type : Option String
  product_name : Option String
  added_on : Nat
deriving DecidableEq, Repr

/-- One row of the `amazon_reviews` table. -/
structure ReviewRow where
  asin : Option String
  product_url : String
  product_name : Option String
  price : Option String
  avg_star_rating : Option Rat
  review_title : Option String
  review_text : String
  rating : Option Nat
  review_date : Option String
  verified : Bool
deriving DecidableEq, Repr

/-- The two tables managed by `DatabaseManager`.  `links` is kept in `id`
order, matching `get_all_links`'s `ORDER BY id`. -/
structure DBState where
  links : List LinkRow
  reviews : List ReviewRow
deriving DecidableEq, Repr

/-! ## `db_manager.py` operations -/

/-- Action of `DatabaseManager.insert_review_row` on the `amazon_reviews`
table (the only table its SQL touches): reject rows with falsy
`product_url`/`review_text`, then check existence by the
`(product_url, review_text)` key, and append one row only when absent. -/
def insert_review_rows (asin product_url product_name price : Option String)
    (avg_star_rating : Option Rat) (review_title review_text : Option String)
    (rating : Option Nat) (review_date : Option String) (verified : Bool)
    (rows : List ReviewRow) : List ReviewRow :=
  match product_url, review_text with
  | some u, some t =>
    if u = "" ∨ t = "" then rows
    else if rows.any (fun r => r.product_url == u && r.review_text == t) then rows
    else rows ++
      [{ asin := asin, product_url := u, product_name := product_name, price := price,
         avg_star_rating := avg_star_rating, review_title := review_title,
         review_text := t, rating := rating, review_date := review_date,
         verified := verified }]
  | _, _ => rows

/-- `DatabaseManager.insert_review_row` as a database-state transformer. -/
def insert_review_row (asin product_url product_name price : Option String)
    (avg_star_rating : Option Rat) (review_title review_text : Option String)
    (rating : Option Nat) (review_date : Option String) (verified : Bool)
    (s : DBState) : DBState :=
  { s with reviews := (insert_review_rows asin product_url product_name price
      avg_star_rating review_title review_text rating review_date verified s.reviews) }

/-- `DatabaseManager.update_product_metadata_for_url`: `UPDATE amazon_links SET
product_name = %s WHERE url = %s` — the `price` and `avg_star_rating`
parameters are accepted but not persisted (see the comment in the source). -/
def update_product_metadata_for_url (url : String) (product_name : Option String)
    (price : Option String) (avg_star_rating : Option Rat) (s : DBState) : DBState :=
  let _ := price
  let _ := avg_star_rating
  { s with links := s.links.map (fun l =>
      if l.url == url then { l with product_name := product_name } else l) }

/-- `DatabaseManager.clear_all_reviews`: `DELETE FROM amazon_reviews`. -/
def clear_all_reviews (s : DBState) : DBState := { s with reviews := [] }

/-- `DatabaseManager.get_all_links`: `SELECT * FROM amazon_links ORDER BY id`. -/
def get_all_links (s : DBState) : List LinkRow := s.links

/-- Result shape of `DatabaseManager.get_processing_stats`. -/
structure ProcessingStats where
  total_links : Nat
  processed_asins : Nat
  pending_asins : Nat
  total_reviews : Nat
deriving DecidableEq, Repr

/-- `DatabaseManager.get_processing_stats`: the four dashboard counts, each a
direct translation of the corresponding `SELECT COUNT` query.  The function is
read-only: it consumes the state and returns only numbers. -/
def get_processing_stats (s : DBState) : ProcessingStats :=
  { total_links := s.links.length
  , processed_asins := ((s.reviews.filterMap (fun r => r.asin)).dedup).length
  , pending_asins := (s.links.filter (fun l =>
      !(s.reviews.any (fun r => r.product_url == l.url)))).length
  , total_reviews := s.reviews.length }

/-! ## `serpapi_client.py` — Metadata Provider -/

/-- The dict returned by `SerpAPIClient.get_product_metadata`. -/
structure ProductMetadata where
  title : Option String
  price : Option String
  avg_rating : Option Rat
  total_reviews : Option Nat
deriving DecidableEq, Repr

/-- The all-`None` metadata record returned on every failure path. -/
def allNullMetadata : ProductMetadata :=
  { title := none, price := none, avg_rating := none, total_reviews := none }

/-- The tag texts `get_product_metadata` extracts from the product page with
BeautifulSoup: each field is the stripped text of the corresponding selector,
or `none` when the selector matched nothing. -/
structure ParsedPage where
  titleText : Option String
  priceText : Option String
  avgRatingText : Option String
  totalReviewsText : Option String
deriving DecidableEq, Repr

/-- Outcome of the `requests.get` call plus HTML parsing inside
`get_product_metadata`'s `try` block: either some step raised an exception
(`exn`, caught by the outer `except`), or a response arrived with the given
status code and — when the status is 200 and parsing proceeds — the given
extracted tag texts. -/
inductive FetchResult where
  | exn (msg : String)
  | resp (status : Nat) (page : ParsedPage)
deriving DecidableEq, Repr

/-- `SerpAPIClient.get_product_metadata`: a total function — the source wraps
the whole body in `try/except` and never raises.  Non-200 responses and
exceptions degrade to the all-null record; on a 200 response each field is
extracted independently, with per-field conversion failures yielding `none`
for that field only. -/
def get_product_metadata : FetchResult → ProductMetadata
  | .exn _ => allNullMetadata
  | .resp status page =>
    if status ≠ 200 then allNullMetadata
    else
      { title := page.titleText
      , price := page.priceText
      , avg_rating := page.avgRatingText.bind (fun raw => parseDecimal (firstToken raw))
      , total_reviews := page.totalReviewsText.bind (fun raw =>
          listToNat? ((firstToken raw).filter (fun c => c ≠ ','))) }

/-! ## `serpapi_client.py` — Review Provider -/

/-- One review-snippet dict appended by `SerpAPIClient.get_reviews` (and the
shape consumed by `ETLPipeline.run` via `r.get(...)`). -/
structure ReviewSnippet where
  review_title : Option String
  review_text : Option String
  rating : Option Nat
  review_date : Option String
  verified : Bool
deriving DecidableEq, Repr

/-- One entry of SerpAPI's `organic_results`, restricted to the two fields the
source reads. -/
structure OrganicResult where
  title : Option String
  snippet : Option String
deriving DecidableEq, Repr

/-- Outcome of the `GoogleSearch(params).get_dict()` call in `get_reviews`:
an exception (caught by the outer `except`), a dict carrying an `"error"`
field, or a result list. -/
inductive SearchOutcome where
  | exn (msg : String)
  | errorField (msg : String)
  | ok (organic_results : List OrganicResult)
deriving DecidableEq, Repr

/-- The ASIN-extraction loop at the top of `get_reviews`: for the first of the
three path tokens occurring in the URL, take `url.split(token)[1].split("/")[0]`. -/
def extractAsin (url : String) : Option String :=
  match ["/dp/", "/gp/product/", "/product/"].find?
      (fun tok => containsList tok.toList url.toList) with
  | none => none
  | some tok =>
    some ⟨((splitOnL tok.toList url.toList).getD 1 []).takeWhile (fun c => c ≠ '/')⟩

/-- The naive "X star" detection in `get_reviews`: scan the lowercased snippet
for `"{star} star"`, `"{star}-star"` or `"{star} stars"` with `star` counting
down from 5 to 1. -/
def ratingGuess (snippet : String) : Option Nat :=
  let lower := snippet.toList.map Char.toLower
  [5, 4, 3, 2, 1].find? (fun star =>
    containsList (Nat.digitChar star :: " star".toList) lower
    || containsList (Nat.digitChar star :: "-star".toList) lower
    || containsList (Nat.digitChar star :: " stars".toList) lower)

/-- `SerpAPIClient.get_reviews`: empty list when no ASIN is extractable, on a
SerpAPI error field, or on an exception; otherwise one snippet record per
organic result with non-falsy snippet text — always with `review_date = none`
and `verified = false`, exactly as the appended dict literal in the source. -/
def get_reviews (url : String) (search : SearchOutcome) : List ReviewSnippet :=
  match extractAsin url with
  | none => []
  | some a =>
    if a = "" then []
    else
      match search with
      | .exn _ => []
      | .errorField _ => []
      | .ok items =>
        items.filterMap (fun item =>
          match item.snippet with
          | none => none
          | some snip =>
            if snip = "" then none
            else some
              { review_title := item.title
              , review_text := some snip
              , rating := ratingGuess snip
              , review_date := none
              , verified := false })

/-! ## `etl_runner.py` — the Extraction Orchestrator

The two provider calls are abstracted as function parameters `metaP` and
`revP` mapping a URL to the value the provider call returns for it during the
run (exceptions from providers are not modelled, so the `except` branch that
increments `errors` is unreachable in the embedding). -/

/-- The `{"processed": ..., "skipped": ..., "errors": ...}` summary returned by
`ETLPipeline.run`. -/
structure RunCounters where
  processed : Nat
  skipped : Nat
  errors : Nat
deriving DecidableEq, Repr

/-- One iteration of the `for link in links` loop of `ETLPipeline.run`,
threading the database state and the three counters. -/
def processLink (skip_existing : Bool) (metaP : String → ProductMetadata)
    (revP : String → List ReviewSnippet) (acc : DBState × RunCounters)
    (link : LinkRow) : DBState × RunCounters :=
  let s := acc.1
  let c := acc.2
  let url := link.url
  let asin := link.asin
  if skip_existing && s.reviews.any (fun r => r.product_url == url) then
    (s, { c with skipped := c.skipped + 1 })
  else
    let meta := metaP url
    let product_name := meta.title
    let price := meta.price
    let avg_star_rating := meta.avg_rating
    let s1 :=
      if optFalsy product_name then s
      else update_product_metadata_for_url url product_name price avg_star_rating s
    let review_snippets := revP url
    if review_snippets.isEmpty then
      (s1, c)
    else
      let s2 := review_snippets.foldl (fun st r =>
        insert_review_row asin (some url) product_name price avg_star_rating
          r.review_title r.review_text r.rating r.review_date r.verified st) s1
      (s2, { c with processed := c.processed + 1 })

/-- `ETLPipeline.run`: read the link list once, clear all reviews when
`skip_existing` is false, then fold the per-link loop body over the links. -/
def run (skip_existing : Bool) (metaP : String → ProductMetadata)
    (revP : String → List ReviewSnippet) (s : DBState) : DBState × RunCounters :=
  let links := get_all_links s
  let s0 := if skip_existing then s else clear_all_reviews s
  links.foldl (processLink skip_existing metaP revP)
    (s0, { processed := 0, skipped := 0, errors := 0 })

/-! ## `api.py` — the Run Status Register -/

/-- The module-level `processing_status` dict of `api.py`. -/
structure RunStatusState where
  is_processing : Bool
  message : String
  progress : Nat
deriving DecidableEq, Repr

/-- The initial `processing_status` value defined at module load. -/
def initProcessingStatus : RunStatusState :=
  { is_processing := false, message := "", progress := 0 }

/-- The `run_pipeline` closure inside `api.process_links`: mark busy, run the
pipeline, then record the terminal message and clear the busy flag in a
`try/except/finally`.  `outcome` is what `ETLPipeline().run(...)` did: `.ok`
with the returned counters (which the source discards), or `.error` with the
text of the raised exception. -/
def run_pipeline (outcome : Except String RunCounters) (st : RunStatusState) :
    RunStatusState :=
  let busy := { st with is_processing := true, message := "Processing started..." }
  match outcome with
  | .ok _ => { busy with message := "Processing completed successfully", is_processing := false }
  | .error e => { busy with message := "Error: " ++ e, is_processing := false }

/-! ## Deduplication-key uniqueness -/

/-- No two rows of the review store share the `(product_url, review_text)`
deduplication key. -/
def UniqueKeys (rows : List ReviewRow) : Prop :=
  rows.Pairwise (fun a b => ¬(a.product_url = b.product_url ∧ a.review_text = b.review_text))

/-- The argument tuple of one `insert_review_row` call, in the source's
parameter order. -/
structure InsertArgs where
  asin : Option String
  product_url : Option String
  product_name : Option String
  price : Option String
  avg_star_rating : Option Rat
  review_title : Option String
  review_text : Option String
  rating : Option Nat
  review_date : Option String
  verified : Bool
deriving DecidableEq, Repr

/-- Perform one `insert_review_row` call from a bundled argument tuple. -/
def applyInsert (s : DBState) (a : InsertArgs) : DBState :=
  insert_review_row a.asin a.product_url a.product_name a.price a.avg_star_rating
    a.review_title a.review_text a.rating a.review_date a.verified s

theorem insert_review_rows_uniqueKeys (asin product_url product_name price : Option String)
    (avg : Option Rat) (review_title review_text : Option String) (rating : Option Nat)
    (review_date : Option String) (verified : Bool) (rows : List ReviewRow)
    (h : UniqueKeys rows) :
    UniqueKeys (insert_review_rows asin product_url product_name price avg
      review_title review_text rating review_date verified rows) := by
  unfold insert_review_rows
  cases product_url with
  | none => exact h
  | some u =>
    cases review_text with
    | none => exact h
    | some t =>
      by_cases hguard : u = "" ∨ t = ""
      · simp [hguard]; exact h
      · by_cases hdup : rows.any (fun r => r.product_url == u && r.review_text == t) = true
        · simp [hguard, hdup]; exact h
        · unfold UniqueKeys at h ⊢
          simp only [hguard, hdup, if_false, ite_false, Bool.false_eq_true]
          rw [List.pairwise_append]
          refine ⟨h, List.pairwise_singleton _ _, ?_⟩
          intro a ha b hb
          simp only [List.mem_singleton] at hb
          subst hb
          have hfalse := List.any_eq_false.mp (Bool.eq_false_iff.mpr hdup) a ha
          simp only [Bool.and_eq_true, beq_iff_eq, not_and] at hfalse
          exact fun hk => hfalse hk.1 hk.2

theorem applyInsert_uniqueKeys (s : DBState) (a : InsertArgs) (h : UniqueKeys s.reviews) :
    UniqueKeys ((applyInsert s a).reviews) :=
  insert_review_rows_uniqueKeys _ _ _ _ _ _ _ _ _ _ _ h

theorem foldl_applyInsert_uniqueKeys (calls : List InsertArgs) :
    ∀ s : DBState, UniqueKeys s.reviews → UniqueKeys ((calls.foldl applyInsert s).reviews) := by
  induction calls with
  | nil => intro s h; exact h
  | cons a rest ih => intro s h; exact ih (applyInsert s a) (applyInsert_uniqueKeys s a h)

/-- C1 (amended).  Deduplication contract of `insert_review_row`:
(1) starting from a review store whose `(product_url, review_text)` pairs are
pairwise distinct, any sequence of `insert_review_row` calls preserves that
uniqueness invariant; (2) a call whose key already exists in the store is a
no-op, not an error; (3) a call with a present, nonempty `product_url` and
`review_text` whose key is absent appends exactly one new row.  (The amendment
restricts part (3) to nonempty url/text: a call with a missing or empty
`product_url` or `review_text` is rejected without inserting, even when no row
with that key exists.) -/
theorem c1_insert_dedup :
    (∀ (calls : List InsertArgs) (s : DBState), UniqueKeys s.reviews →
      UniqueKeys ((calls.foldl applyInsert s).reviews))
    ∧ (∀ (a : InsertArgs) (s : DBState) (u t : String), a.product_url = some u →
        a.review_text = some t →
        (∃ r ∈ s.reviews, r.product_url = u ∧ r.review_text = t) →
        applyInsert s a = s)
    ∧ (∀ (a : InsertArgs) (s : DBState) (u t : String), a.product_url = some u →
        a.review_text = some t → u ≠ "" → t ≠ "" →
        (∀ r ∈ s.reviews, ¬(r.product_url = u ∧ r.review_text = t)) →
        (applyInsert s a).reviews = s.reviews ++
          [{ asin := a.asin, product_url := u, product_name := a.product_name,
             price := a.price, avg_star_rating := a.avg_star_rating,
             review_title := a.review_title, review_text := t, rating := a.rating,
             review_date := a.review_date, verified := a.verified }]) := by
  refine ⟨fun calls s h => foldl_applyInsert_uniqueKeys calls s h, ?_, ?_⟩
  · intro a s u t hpu hrt hdup
    obtain ⟨r, hr, hkey⟩ := hdup
    have hany : s.reviews.any (fun r => r.product_url == u && r.review_text == t) = true :=
      List.any_eq_true.mpr ⟨r, hr, by simp [hkey.1, hkey.2]⟩
    unfold applyInsert insert_review_row insert_review_rows
    rw [hpu, hrt]
    by_cases hguard : u = "" ∨ t = ""
    · simp [hguard]
    · simp [hguard, hany]
  · intro a s u t hpu hrt hu ht habs
    have hany : s.reviews.any (fun r => r.product_url == u && r.review_text == t) = false := by
      rw [List.any_eq_false]
      intro r hr
      simp only [Bool.and_eq_true, beq_iff_eq, not_and]
      exact fun h1 h2 => habs r hr ⟨h1, h2⟩
    unfold applyInsert insert_review_row insert_review_rows
    rw [hpu, hrt]
    simp [hu, ht, hany]

/-- C1 counterexample input: a call with present `product_url = "u"` but empty
`review_text`, against the empty store. -/
def c1Args : InsertArgs :=
  { asin := none, product_url := some "u", product_name := none, price := none,
    avg_star_rating := none, review_title := none, review_text := some "",
    rating := none, review_date := none, verified := false }

/-- The empty database. -/
def emptyDB : DBState := { links := [], reviews := [] }

/-- C1 counterexample: no row with the key `("u", "")` exists in the empty
store, yet the `insert_review_row` call inserts zero rows — not "exactly one
new row" as the claim states — because the source rejects falsy
`review_text` before the existence check. -/
theorem c1_counterexample :
    (applyInsert emptyDB c1Args).reviews.length = 0
    ∧ emptyDB.reviews.any (fun r => r.product_url == "u" && r.review_text == "") = false
    ∧ (0 : Nat) ≠ 0 + 1 := by decide

/-- C1 duplicate-call scenario used by the witness. -/
def c1DupRow : ReviewRow :=
  { asin := none, product_url := "u", product_name := none, price := none,
    avg_star_rating := none, review_title := none, review_text := "t",
    rating := none, review_date := none, verified := false }

/-- C1 valid-insert argument tuple used by the witness. -/
def c1GoodArgs : InsertArgs :=
  { asin := some "A", product_url := some "u", product_name := none, price := none,
    avg_star_rating := none, review_title := some "T", review_text := some "t",
    rating := some 5, review_date := none, verified := false }

theorem c1_witness :
    UniqueKeys (([c1GoodArgs].foldl applyInsert emptyDB).reviews)
    ∧ applyInsert { links := [], reviews := [c1DupRow] } c1GoodArgs
        = { links := [], reviews := [c1DupRow] }
    ∧ (applyInsert emptyDB c1GoodArgs).reviews = emptyDB.reviews ++
        [{ asin := c1GoodArgs.asin, product_url := "u",
           product_name := c1GoodArgs.product_name, price := c1GoodArgs.price,
           avg_star_rating := c1GoodArgs.avg_star_rating,
           review_title := c1GoodArgs.review_title, review_text := "t",
           rating := c1GoodArgs.rating, review_date := c1GoodArgs.review_date,
           verified := c1GoodArgs.verified }] :=
  ⟨c1_insert_dedup.1 [c1GoodArgs] emptyDB List.Pairwise.nil,
   c1_insert_dedup.2.1 c1GoodArgs { links := [], reviews := [c1DupRow] } "u" "t" rfl rfl
     ⟨c1DupRow, by simp, rfl, rfl⟩,
   c1_insert_dedup.2.2 c1GoodArgs emptyDB "u" "t" rfl rfl (by decide) (by decide)
     (by intro r hr; simp [emptyDB] at hr)⟩

/-- C10 (confirmed).  Frame property of `update_product_metadata_for_url`:
the review table is untouched; the `price` and `avg_star_rating` arguments are
discarded (the result does not depend on them); the link table keeps its
length, and each link row keeps its `id`, `asin`, `url`, `product_type` and
`added_on`, with `product_name` replaced by the argument exactly on the rows
whose `url` matches. -/
theorem c10_update_frame (url : String) (name price p2 : Option String)
    (avg a2 : Option Rat) (s : DBState) :
    (update_product_metadata_for_url url name price avg s).reviews = s.reviews
    ∧ update_product_metadata_for_url url name p2 a2 s
        = update_product_metadata_for_url url name price avg s
    ∧ (update_product_metadata_for_url url name price avg s).links.length = s.links.length
    ∧ ∀ (i : Nat) (hi : i < s.links.length)
        (hi2 : i < (update_product_metadata_for_url url name price avg s).links.length),
        ((update_product_metadata_for_url url name price avg s).links.get ⟨i, hi2⟩).id
            = (s.links.get ⟨i, hi⟩).id
        ∧ ((update_product_metadata_for_url url name price avg s).links.get ⟨i, hi2⟩).asin
            = (s.links.get ⟨i, hi⟩).asin
        ∧ ((update_product_metadata_for_url url name price avg s).links.get ⟨i, hi2⟩).url
            = (s.links.get ⟨i, hi⟩).url
        ∧ ((update_product_metadata_for_url url name price avg s).links.get ⟨i, hi2⟩).product_type
            = (s.links.get ⟨i, hi⟩).product_type
        ∧ ((update_product_metadata_for_url url name price avg s).links.get ⟨i, hi2⟩).added_on
            = (s.links.get ⟨i, hi⟩).added_on
        ∧ ((update_product_metadata_for_url url name price avg s).links.get ⟨i, hi2⟩).product_name
            = (if (s.links.get ⟨i, hi⟩).url == url then name
               else (s.links.get ⟨i, hi⟩).product_name) := by
  refine ⟨rfl, rfl, by simp [update_product_metadata_for_url], ?_⟩
  intro i hi hi2
  simp only [update_product_metadata_for_url, List.get_eq_getElem, List.getElem_map]
  by_cases hc : (s.links.get ⟨i, hi⟩).url == url <;>
    simp [List.get_eq_getElem] at hc ⊢ <;> simp [hc]

/-- Concrete state for the C10 witness: one link whose url matches and one
review row. -/
def c10State : DBState :=
  { links := [{ id := 7, asin := some "A", url := "u", product_type := some "cat",
                product_name := some "old", added_on := 3 }]
  , reviews := [c1DupRow] }

theorem c10_witness :
    (update_product_metadata_for_url "u" (some "New") (some "$5") (some 4) c10State).reviews
        = c10State.reviews
    ∧ ((update_product_metadata_for_url "u" (some "New") (some "$5") (some 4) c10State).links.get
        ⟨0, by decide⟩).asin = ((c10State.links.get ⟨0, by decide⟩)).asin :=
  ⟨(c10_update_frame "u" (some "New") (some "$5") none (some 4) none c10State).1,
   ((c10_update_frame "u" (some "New") (some "$5") none (some 4) none c10State).2.2.2
      0 (by decide) (by decide)).2.1⟩

/-- C8 (confirmed).  Error degradation of `get_product_metadata`: the function
is total over every fetch outcome (the source wraps its whole body in
`try/except`, so it never raises), a response with any non-200 status yields
the all-null metadata record, and an exception anywhere during the fetch or
the HTML parse (the `.exn` outcome, caught by the outer `except`) also yields
the all-null record. -/
theorem c8_metadata_degrades (status : Nat) (page : ParsedPage) (msg : String)
    (h : status ≠ 200) :
    get_product_metadata (.resp status page) = allNullMetadata
    ∧ get_product_metadata (.exn msg) = allNullMetadata := by
  constructor
  · simp [get_product_metadata, h]
  · rfl

/-- Concrete parsed page used by the C8 witness. -/
def c8Page : ParsedPage :=
  { titleText := some "t", priceText := some "$1",
    avgRatingText := some "4.5 out of 5", totalReviewsText := some "9 ratings" }

theorem c8_witness :
    get_product_metadata (.resp 404 c8Page) = allNullMetadata
    ∧ get_product_metadata (.exn "connection reset") = allNullMetadata :=
  c8_metadata_degrades 404 c8Page "connection reset" (by decide)

/-- Model of the Python substring test `sub in m` on strings. -/
def containsStr (m sub : String) : Bool := containsList sub.toList m.toList

/-- C6 counterexample: on a successful run that returned
`processed = 2, skipped = 0, errors = 0`, the terminal message stored by
`run_pipeline` is the fixed string `"Processing completed successfully"`,
which does not contain the processed count `2` (the source discards the
summary dict returned by `ETLPipeline.run`), refuting that the stored message
is "a success summary containing the processed, skipped, and errors counts". -/
theorem c6_counterexample :
    (run_pipeline (.ok { processed := 2, skipped := 0, errors := 0 })
        initProcessingStatus).message = "Processing completed successfully"
    ∧ containsStr (run_pipeline (.ok { processed := 2, skipped := 0, errors := 0 })
        initProcessingStatus).message "2" = false := by decide

/-- C6 (amended).  Lifecycle of the Run Status Register in `run_pipeline`:
whether the pipeline completes normally or raises, `is_processing` is cleared
at run end, and the terminal message is either the fixed success string
`"Processing completed successfully"` — which does not include the
processed/skipped/errors counts, since the run's summary is discarded — or
`"Error: "` followed by the captured exception text. -/
theorem c6_terminal_status (r : RunCounters) (e : String) (st : RunStatusState) :
    (run_pipeline (.ok r) st).is_processing = false
    ∧ (run_pipeline (.error e) st).is_processing = false
    ∧ (run_pipeline (.ok r) st).message = "Processing completed successfully"
    ∧ (run_pipeline (.error e) st).message = "Error: " ++ e :=
  ⟨rfl, rfl, rfl, rfl⟩

/-- C3 (confirmed).  Skip semantics of the orchestration loop: when
`skip_existing` is true and the review store already holds at least one row
for the link's URL, the loop iteration returns the database state unchanged
(so the product's review rows are untouched; the source maintains no
incremental-cursor store, so the claim's cursor disjunct and "cursor
unchanged" part are vacuous), increments only the `skipped` counter, and is
independent of both providers — the observable content of "performs no
provider calls" in the embedding — before continuing to the next link. -/
theorem c3_skip_existing (metaP metaP2 : String → ProductMetadata)
    (revP revP2 : String → List ReviewSnippet) (s : DBState) (c : RunCounters)
    (lnk : LinkRow) (h : s.reviews.any (fun r => r.product_url == lnk.url) = true) :
    processLink true metaP revP (s, c) lnk = (s, { c with skipped := c.skipped + 1 })
    ∧ processLink true metaP revP (s, c) lnk = processLink true metaP2 revP2 (s, c) lnk := by
  constructor
  · unfold processLink
    simp [h]
  · unfold processLink
    simp [h]

/-- Concrete skip scenario for the C3 witness: the store already holds a row
for url `"u"`. -/
def c3State : DBState := { links := [], reviews := [c1DupRow] }

/-- Concrete link over url `"u"` used by C3's witness. -/
def c3Link : LinkRow :=
  { id := 1, asin := some "A", url := "u", product_type := none,
    product_name := none, added_on := 0 }

/-- A second, different pair of providers used to witness provider
independence. -/
def c3AltRevP : String → List ReviewSnippet := fun _ =>
  [{ review_title := none, review_text := some "other", rating := none,
     review_date := none, verified := false }]

/-- The all-null metadata provider (shared concrete provider). -/
def metaNull : String → ProductMetadata := fun _ => allNullMetadata

/-- The empty review provider (shared concrete provider). -/
def revNone : String → List ReviewSnippet := fun _ => []

theorem c3_witness :
    processLink true metaNull revNone (c3State, { processed := 0, skipped := 0, errors := 0 })
        c3Link
      = (c3State, { processed := 0, skipped := 0 + 1, errors := 0 })
    ∧ processLink true metaNull revNone (c3State, { processed := 0, skipped := 0, errors := 0 })
        c3Link
      = processLink true metaNull c3AltRevP
          (c3State, { processed := 0, skipped := 0, errors := 0 }) c3Link := by
  have h := c3_skip_existing metaNull metaNull revNone c3AltRevP c3State
    { processed := 0, skipped := 0, errors := 0 } c3Link (by decide)
  exact ⟨h.1, h.2⟩

/-- C4 counterexample providers: two reviews for url `"a"`, none for `"b"`. -/
def c4RevP : String → List ReviewSnippet := fun u =>
  if u = "a" then
    [{ review_title := none, review_text := some "r1", rating := none,
       review_date := none, verified := false },
     { review_title := none, review_text := some "r2", rating := none,
       review_date := none, verified := false }]
  else []

/-- C4 counterexample registry: two links `A` (url `"a"`) and `B` (url `"b"`),
empty review store. -/
def c4Registry : DBState :=
  { links := [{ id := 1, asin := some "A", url := "a", product_type := none,
                product_name := none, added_on := 0 },
              { id := 2, asin := some "B", url := "b", product_type := none,
                product_name := none, added_on := 0 }]
  , reviews := [] }

/-- C4 counterexample: for the claim's own two-link scenario (provider returns
2 reviews for one link and 0 for the other, `skip_existing = true`, empty
store), `run` returns `processed = 1, skipped = 0, errors = 0` — not
`processed = 2` — because the source hits `continue` on an empty provider
result before the `processed += 1` line. -/
theorem c4_counterexample :
    (run true metaNull c4RevP c4Registry).2
        = { processed := 1, skipped := 0, errors := 0 }
    ∧ ({ processed := 1, skipped := 0, errors := 0 } : RunCounters)
        ≠ { processed := 2, skipped := 0, errors := 0 } := by decide

/-- C4 (amended).  A link whose Review Provider call returns an empty sequence
is counted neither as processed nor as skipped nor as an error: provided the
link is not skipped (no stored review rows for its URL), the loop iteration
leaves all three counters unchanged.  Hence the claim's two-link scenario
returns `processed = 1, skipped = 0, errors = 0`. -/
theorem c4_empty_reviews_not_processed (b : Bool) (metaP : String → ProductMetadata)
    (revP : String → List ReviewSnippet) (s : DBState) (c : RunCounters) (lnk : LinkRow)
    (h1 : s.reviews.any (fun r => r.product_url == lnk.url) = false)
    (h2 : revP lnk.url = []) :
    (processLink b metaP revP (s, c) lnk).2 = c := by
  unfold processLink
  simp [h1, h2]

theorem c4_witness :
    (processLink true metaNull revNone
        (c4Registry, { processed := 0, skipped := 0, errors := 0 })
        { id := 2, asin := some "B", url := "b", product_type := none,
          product_name := none, added_on := 0 }).2
      = { processed := 0, skipped := 0, errors := 0 } :=
  c4_empty_reviews_not_processed true metaNull revNone c4Registry
    { processed := 0, skipped := 0, errors := 0 }
    { id := 2, asin := some "B", url := "b", product_type := none,
      product_name := none, added_on := 0 } (by decide) (by decide)

/-- Modelled from the spec: the incremental filter of §4.1 step 5, which the
source does not implement (the repository has no IncrementalCursor store and
`ETLPipeline.run` never consults `review_date`).  A review is included when
its `review_date` is absent or not comparable (here: not a decimal timestamp),
and otherwise only when it is strictly greater than the cursor's cutoff. -/
def specIncludesReview (cutoff : Nat) (r : ReviewSnippet) : Bool :=
  match r.review_date with
  | none => true
  | some d =>
    match listToNat? d.toList with
    | none => true
    | some n => decide (cutoff < n)

/-- Modelled from the spec: the per-link incremental filter applied to a
fetched review sequence. -/
def specIncrementalFilter (cutoff : Nat) (rs : List ReviewSnippet) : List ReviewSnippet :=
  rs.filter (specIncludesReview cutoff)

/-- C9 (confirmed).  Every review record produced by
`SerpAPIClient.get_reviews` has `review_date = None` and `verified = False`,
so for every cursor cutoff an incremental filter that excludes only reviews
with a present, comparable `review_date` keeps every fetched review. -/
theorem c9_provider_no_dates (url : String) (search : SearchOutcome) :
    (∀ r ∈ get_reviews url search, r.review_date = none ∧ r.verified = false)
    ∧ ∀ cutoff : Nat,
        specIncrementalFilter cutoff (get_reviews url search) = get_reviews url search := by
  have hfields : ∀ r ∈ get_reviews url search, r.review_date = none ∧ r.verified = false := by
    intro r hr
    unfold get_reviews at hr
    split at hr
    · simp at hr
    · split at hr
      · simp at hr
      · split at hr
        · simp at hr
        · simp at hr
        · rw [List.mem_filterMap] at hr
          obtain ⟨item, _, hf⟩ := hr
          split at hf
          · exact absurd hf (by simp)
          · split at hf
            · exact absurd hf (by simp)
            · rw [Option.some_inj] at hf
              subst hf
              exact ⟨rfl, rfl⟩
  refine ⟨hfields, ?_⟩
  intro cutoff
  unfold specIncrementalFilter
  apply List.filter_eq_self.mpr
  intro r hr
  have hd := (hfields r hr).1
  simp [specIncludesReview, hd]

/-- Concrete search outcome for the C9 witness. -/
def c9Search : SearchOutcome := .ok [{ title := some "T", snippet := some "nice" }]

/-- The single snippet `get_reviews` produces from `c9Search`. -/
def c9Snippet : ReviewSnippet :=
  { review_title := some "T", review_text := some "nice", rating := none,
    review_date := none, verified := false }

theorem c9_witness :
    c9Snippet ∈ get_reviews "x/dp/B1" c9Search
    ∧ c9Snippet.review_date = none ∧ c9Snippet.verified = false :=
  ⟨by decide, (c9_provider_no_dates "x/dp/B1" c9Search).1 c9Snippet (by decide)⟩

/-- C2 counterexample provider: a single review carrying the stale date `"3"`. -/
def c2RevP : String → List ReviewSnippet := fun _ =>
  [{ review_title := none, review_text := some "old but good", rating := none,
     review_date := some "3", verified := false }]

/-- C2 counterexample registry: one link with an empty review store. -/
def c2Registry : DBState :=
  { links := [{ id := 1, asin := some "A", url := "a", product_type := none,
                product_name := none, added_on := 0 }]
  , reviews := [] }

/-- C2 counterexample: the orchestrator inserts a fetched review whose
`review_date` (`"3"`) is present, comparable, and not greater than the cursor
cutoff `5` — the spec's incremental filter at cutoff 5 excludes that review,
so the claim's "a review with `review_date <= cutoff` is always excluded" is
false of the code: `ETLPipeline.run` applies no incremental filtering at all
(no IncrementalCursor exists anywhere in the source). -/
theorem c2_counterexample :
    ((run true metaNull c2RevP c2Registry).1.reviews.map (fun r => r.review_date))
        = [some "3"]
    ∧ specIncludesReview 5
        { review_title := none, review_text := some "old but good", rating := none,
          review_date := some "3", verified := false } = false := by decide

/-- C2 (amended).  The orchestrator performs no incremental filtering: every
fetched review with nonempty text is passed to insertion and stored regardless
of its `review_date` — for a fresh link (empty store) and a provider returning
one review with arbitrary `review_date` `d`, the stored rows afterwards are
exactly that review, for every `d` (in particular for dates at or before any
cursor cutoff).  Reviews with a null `review_date` are likewise always
included, which is the half of the claim the code does satisfy. -/
theorem c2_no_incremental_filter (d : Option String) (t : String) (ht : t ≠ "")
    (lnk : LinkRow) (hu : lnk.url ≠ "") (metaP : String → ProductMetadata) :
    ((run true metaP
        (fun _ => [{ review_title := none, review_text := some t, rating := none,
                     review_date := d, verified := false }])
        { links := [lnk], reviews := [] }).1.reviews.map
      (fun r => (r.review_text, r.review_date))) = [(t, d)] := by
  unfold run get_all_links clear_all_reviews processLink
  simp only [List.foldl_cons, List.foldl_nil, List.any_nil, Bool.and_false, if_false]
  by_cases hmeta : optFalsy (metaP lnk.url).title
  · simp [hmeta, insert_review_row, insert_review_rows, hu, ht]
  · simp [hmeta, insert_review_row, insert_review_rows, update_product_metadata_for_url,
      hu, ht]

theorem c2_witness :
    ((run true metaNull
        (fun _ => [{ review_title := none, review_text := some "x", rating := none,
                     review_date := some "3", verified := false }])
        { links := [c3Link], reviews := [] }).1.reviews.map
      (fun r => (r.review_text, r.review_date))) = [("x", some "3")] :=
  c2_no_incremental_filter (some "3") "x" (by decide) c3Link (by decide) metaNull

/-- Follows the spec's words for C7: "count of distinct products with at least
one ReviewRecord", products being the rows of the Link Registry (their urls
are unique). -/
def specProcessedProducts (s : DBState) : Nat :=
  (s.links.filter (fun l => s.reviews.any (fun r => r.product_url == l.url))).length

/-- C7 counterexample state: one link whose `asin` is null (the source permits
this — `asin TEXT` is nullable and `insert_link` stores whatever was
extracted) with one review row for its url, also carrying a null `asin`. -/
def c7State : DBState :=
  { links := [{ id := 1, asin := none, url := "u", product_type := none,
                product_name := none, added_on := 0 }]
  , reviews := [{ asin := none, product_url := "u", product_name := none, price := none,
                  avg_star_rating := none, review_title := none, review_text := "great",
                  rating := none, review_date := none, verified := false }] }

/-- C7 counterexample: a product with a null `asin` has a ReviewRecord, so the
claim's `processed_products` ("count of distinct products having at least one
ReviewRecord") is 1, but `get_processing_stats` computes
`COUNT(DISTINCT asin) ... WHERE asin IS NOT NULL` over the review table and
reports 0. -/
theorem c7_counterexample :
    (get_processing_stats c7State).processed_asins = 0
    ∧ specProcessedProducts c7State = 1
    ∧ (0 : Nat) ≠ 1 := by decide

/-- C7 example state: 3 links of which exactly the first has a review row, the
review row recording the product's (non-null) asin. -/
def c7ExampleState : DBState :=
  { links := [{ id := 1, asin := some "A", url := "a", product_type := none,
                product_name := none, added_on := 0 },
              { id := 2, asin := some "B", url := "b", product_type := none,
                product_name := none, added_on := 0 },
              { id := 3, asin := some "C", url := "c", product_type := none,
                product_name := none, added_on := 0 }]
  , reviews := [{ asin := some "A", product_url := "a", product_name := none, price := none,
                  avg_star_rating := none, review_title := none, review_text := "nice",
                  rating := none, review_date := none, verified := false }] }

/-- C7 (amended).  `get_processing_stats` is a read-only function of the
state returning `total_links` = count of Link rows, `total_reviews` = count of
ReviewRecord rows, `pending_asins` = count of Link rows whose URL has no
ReviewRecord, and `processed_asins` = number of **distinct non-null `asin`
values occurring in the review table** (not "products with at least one
ReviewRecord": a product whose stored asin is null is never counted, and the
source has no IncrementalCursor store to state the claim's equivalence
against).  On the claim's example — 3 links, exactly 1 with a ReviewRecord
that records its asin — it returns `total_links = 3, processed = 1,
pending = 2`. -/
theorem c7_stats (s : DBState) :
    (get_processing_stats s).total_links = s.links.length
    ∧ (get_processing_stats s).total_reviews = s.reviews.length
    ∧ (get_processing_stats s).processed_asins
        = (s.reviews.filterMap (fun r => r.asin)).toFinset.card
    ∧ (get_processing_stats s).pending_asins
        = (s.links.filter (fun l =>
            !(s.reviews.any (fun r => r.product_url == l.url)))).length
    ∧ get_processing_stats c7ExampleState
        = { total_links := 3, processed_asins := 1, pending_asins := 2, total_reviews := 1 } :=
  ⟨rfl, rfl, List.card_toFinset _, rfl, by decide⟩

/-! ## Lemmas about the orchestration loop, for C5 -/

theorem foldl_insert_state (asin : Option String) (url : String) (pn pr : Option String)
    (avg : Option Rat) (snips : List ReviewSnippet) :
    ∀ s : DBState,
      snips.foldl (fun st r => insert_review_row asin (some url) pn pr avg
        r.review_title r.review_text r.rating r.review_date r.verified st) s
      = { links := s.links
        , reviews := snips.foldl (fun rows r => insert_review_rows asin (some url) pn pr avg
            r.review_title r.review_text r.rating r.review_date r.verified rows) s.reviews } := by
  induction snips with
  | nil => intro s; rfl
  | cons r rest ih =>
    intro s
    rw [List.foldl_cons, List.foldl_cons, ih]
    rfl

/-- The action of one loop iteration of `ETLPipeline.run` on the review table,
as a function of the link's `url` and `asin` and the incoming rows only. -/
def linkReviewsStep (b : Bool) (metaP : String → ProductMetadata)
    (revP : String → List ReviewSnippet) (url : String) (asin : Option String)
    (rows : List ReviewRow) : List ReviewRow :=
  if b && rows.any (fun r => r.product_url == url) then rows
  else
    let meta := metaP url
    let snippets := revP url
    if snippets.isEmpty then rows
    else snippets.foldl (fun rows r => insert_review_rows asin (some url) meta.title
      meta.price meta.avg_rating r.review_title r.review_text r.rating r.review_date
      r.verified rows) rows

theorem processLink_reviews (b : Bool) (metaP : String → ProductMetadata)
    (revP : String → List ReviewSnippet) (s : DBState) (c : RunCounters) (lnk : LinkRow) :
    ((processLink b metaP revP (s, c) lnk).1).reviews
      = linkReviewsStep b metaP revP lnk.url lnk.asin s.reviews := by
  unfold processLink linkReviewsStep
  by_cases hskip : (b && s.reviews.any (fun r => r.product_url == lnk.url)) = true
  · simp [hskip]
  · simp only [hskip, if_false, Bool.false_eq_true, ite_false]
    by_cases hmeta : optFalsy (metaP lnk.url).title
    · by_cases hempty : (revP lnk.url).isEmpty
      · simp [hskip, hmeta, hempty]
      · simp [hskip, hmeta, hempty, foldl_insert_state]
    · by_cases hempty : (revP lnk.url).isEmpty
      · simp [hskip, hmeta, hempty, update_product_metadata_for_url]
      · simp [hskip, hmeta, hempty, foldl_insert_state, update_product_metadata_for_url]

theorem update_links_urlAsin (url : String) (n p : Option String) (a : Option Rat)
    (s : DBState) :
    (update_product_metadata_for_url url n p a s).links.map (fun l => (l.url, l.asin))
      = s.links.map (fun l => (l.url, l.asin)) := by
  unfold update_product_metadata_for_url
  simp only [List.map_map]
  congr 1
  funext l
  by_cases hc : l.url = url <;> simp [hc]

theorem processLink_links_urlAsin (b : Bool) (metaP : String → ProductMetadata)
    (revP : String → List ReviewSnippet) (s : DBState) (c : RunCounters) (lnk : LinkRow) :
    ((processLink b metaP revP (s, c) lnk).1).links.map (fun l => (l.url, l.asin))
      = s.links.map (fun l => (l.url, l.asin)) := by
  unfold processLink
  by_cases hskip : (b && s.reviews.any (fun r => r.product_url == lnk.url)) = true
  · simp [hskip]
  · simp only [hskip, if_false, Bool.false_eq_true, ite_false]
    by_cases hmeta : optFalsy (metaP lnk.url).title
    · by_cases hempty : (revP lnk.url).isEmpty
      · simp [hskip, hmeta, hempty]
      · simp [hskip, hmeta, hempty, foldl_insert_state]
    · by_cases hempty : (revP lnk.url).isEmpty
      · simp [hskip, hmeta, hempty, update_links_urlAsin]
      · simp [hskip, hmeta, hempty, foldl_insert_state, update_links_urlAsin]

theorem foldl_processLink_links_urlAsin (b : Bool) (metaP : String → ProductMetadata)
    (revP : String → List ReviewSnippet) :
    ∀ (ls : List LinkRow) (acc : DBState × RunCounters),
      ((ls.foldl (processLink b metaP revP) acc).1).links.map (fun l => (l.url, l.asin))
        = (acc.1).links.map (fun l => (l.url, l.asin)) := by
  intro ls
  induction ls with
  | nil => intro acc; rfl
  | cons l rest ih =>
    intro acc
    obtain ⟨s, c⟩ := acc
    rw [List.foldl_cons, ih (processLink b metaP revP (s, c) l)]
    exact processLink_links_urlAsin b metaP revP s c l

theorem foldl_processLink_reviews_congr (b : Bool) (metaP : String → ProductMetadata)
    (revP : String → List ReviewSnippet) :
    ∀ (ls1 ls2 : List LinkRow),
      ls1.map (fun l => (l.url, l.asin)) = ls2.map (fun l => (l.url, l.asin)) →
      ∀ (acc1 acc2 : DBState × RunCounters), (acc1.1).reviews = (acc2.1).reviews →
      ((ls1.foldl (processLink b metaP revP) acc1).1).reviews
        = ((ls2.foldl (processLink b metaP revP) acc2).1).reviews := by
  intro ls1
  induction ls1 with
  | nil =>
    intro ls2 hmap acc1 acc2 hrev
    cases ls2 with
    | nil => simpa using hrev
    | cons l2 rest2 => simp at hmap
  | cons l1 rest1 ih =>
    intro ls2 hmap acc1 acc2 hrev
    cases ls2 with
    | nil => simp at hmap
    | cons l2 rest2 =>
      simp only [List.map_cons, List.cons.injEq, Prod.mk.injEq] at hmap
      obtain ⟨⟨hurl, hasin⟩, htail⟩ := hmap
      rw [List.foldl_cons, List.foldl_cons]
      apply ih rest2 htail
      obtain ⟨s1, c1⟩ := acc1
      obtain ⟨s2, c2⟩ := acc2
      simp only at hrev
      rw [processLink_reviews, processLink_reviews, hurl, hasin, hrev]

theorem foldl_insert_rows_uniqueKeys (asin pu pn pr : Option String) (avg : Option Rat)
    (snips : List ReviewSnippet) :
    ∀ rows, UniqueKeys rows →
      UniqueKeys (snips.foldl (fun rows r => insert_review_rows asin pu pn pr avg
        r.review_title r.review_text r.rating r.review_date r.verified rows) rows) := by
  induction snips with
  | nil => intro rows h; exact h
  | cons r rest ih =>
    intro rows h
    exact ih _ (insert_review_rows_uniqueKeys _ _ _ _ _ _ _ _ _ _ _ h)

theorem linkReviewsStep_uniqueKeys (b : Bool) (metaP : String → ProductMetadata)
    (revP : String → List ReviewSnippet) (url : String) (asin : Option String)
    (rows : List ReviewRow) (h : UniqueKeys rows) :
    UniqueKeys (linkReviewsStep b metaP revP url asin rows) := by
  unfold linkReviewsStep
  by_cases hskip : (b && rows.any (fun r => r.product_url == url)) = true
  · simpa [hskip] using h
  · by_cases hempty : (revP url).isEmpty
    · simpa [hskip, hempty] using h
    · simpa [hskip, hempty] using foldl_insert_rows_uniqueKeys _ _ _ _ _ _ rows h

theorem foldl_processLink_uniqueKeys (b : Bool) (metaP : String → ProductMetadata)
    (revP : String → List ReviewSnippet) :
    ∀ (ls : List LinkRow) (acc : DBState × RunCounters),
      UniqueKeys ((acc.1).reviews) →
      UniqueKeys (((ls.foldl (processLink b metaP revP) acc).1).reviews) := by
  intro ls
  induction ls with
  | nil => intro acc h; exact h
  | cons l rest ih =>
    intro acc h
    obtain ⟨s, c⟩ := acc
    rw [List.foldl_cons]
    apply ih
    rw [processLink_reviews]
    exact linkReviewsStep_uniqueKeys b metaP revP l.url l.asin s.reviews h

/-- C5 (confirmed).  Dedup idempotence of the full-refresh mode: running the
orchestrator twice with `skip_existing = false` and an unchanged provider
response set leaves every product's review-row count after the second run
equal to its value after the first run (the review table is in fact identical,
since the second run clears it and re-derives it from the same link
url/asin sequence and the same provider responses), and the
`(product_url, review_text)` key uniqueness holds after both runs. -/
theorem c5_run_idempotent (metaP : String → ProductMetadata)
    (revP : String → List ReviewSnippet) (s : DBState) :
    (∀ url : String,
      (((run false metaP revP (run false metaP revP s).1).1).reviews.filter
          (fun r => r.product_url == url)).length
        = (((run false metaP revP s).1).reviews.filter
            (fun r => r.product_url == url)).length)
    ∧ UniqueKeys (((run false metaP revP s).1).reviews)
    ∧ UniqueKeys (((run false metaP revP (run false metaP revP s).1).1).reviews) := by
  have hrev : ((run false metaP revP (run false metaP revP s).1).1).reviews
      = ((run false metaP revP s).1).reviews := by
    show ((((run false metaP revP s).1).links.foldl (processLink false metaP revP)
        (clear_all_reviews (run false metaP revP s).1,
          { processed := 0, skipped := 0, errors := 0 })).1).reviews
      = ((s.links.foldl (processLink false metaP revP)
        (clear_all_reviews s, { processed := 0, skipped := 0, errors := 0 })).1).reviews
    apply foldl_processLink_reviews_congr
    · show ((run false metaP revP s).1).links.map (fun l => (l.url, l.asin))
        = s.links.map (fun l => (l.url, l.asin))
      exact foldl_processLink_links_urlAsin false metaP revP s.links
        (clear_all_reviews s, { processed := 0, skipped := 0, errors := 0 })
    · rfl
  have huniq : UniqueKeys (((run false metaP revP s).1).reviews) := by
    show UniqueKeys (((s.links.foldl (processLink false metaP revP)
      (clear_all_reviews s, { processed := 0, skipped := 0, errors := 0 })).1).reviews)
    exact foldl_processLink_uniqueKeys false metaP revP s.links _ List.Pairwise.nil
  exact ⟨fun url => by rw [hrev], huniq, by rw [hrev]; exact huniq⟩

end AmazonETL
